import Mathlib

/-!
Verification of the comarch-client request/response marshalling layer.

The embedding models Python dictionaries as ordered association lists
over an inductive `Value` type (Python dicts preserve insertion order),
Python `None` as `Value.null` or `Option`, and Python truthiness
explicitly. Fallible operations return `Except String`.
-/

namespace ComarchClient

/-- A Python-like value as it appears in the wire-form mappings:
strings, integers, booleans, None, lists, and ordered dictionaries. -/
inductive Value where
  | str : String → Value
  | int : Int → Value
  | bool : Bool → Value
  | null : Value
  | list : List Value → Value
  | dict : List (String × Value) → Value

/-- Python truthiness of a `Value` (empty string, zero, False, None,
empty list and empty dict are falsy). -/
def Value.truthy : Value → Bool
  | .str s => !s.isEmpty
  | .int n => n != 0
  | .bool b => b
  | .null => false
  | .list l => !l.isEmpty
  | .dict d => !d.isEmpty

/-- First-match lookup in an ordered association list (dict access). -/
def lookupKey (k : String) : List (String × Value) → Option Value
  | [] => none
  | (k', v) :: rest => if k = k' then some v else lookupKey k rest

/-- Zero-pad a natural number to two digits (strftime %d, %m, %H, %M). -/
def pad2 (n : Nat) : String :=
  if n < 10 then "0" ++ toString n else toString n

/-- Zero-pad a natural number to four digits (strftime %Y). -/
def pad4 (n : Nat) : String :=
  if n < 10 then "000" ++ toString n
  else if n < 100 then "00" ++ toString n
  else if n < 1000 then "0" ++ toString n
  else toString n

/-- A calendar date (datetime.date). -/
structure Date where
  year : Nat
  month : Nat
  day : Nat

/-- A date with time of day (datetime.datetime); only the components
used by the client strftime calls are modelled. -/
structure DateTime where
  year : Nat
  month : Nat
  day : Nat
  hour : Nat
  minute : Nat

/-- strftime "%d%m%Y" on a date. -/
def Date.strftime_ddmmyyyy (d : Date) : String :=
  pad2 d.day ++ pad2 d.month ++ pad4 d.year

/-- strftime "%Y%m%d" on a datetime. -/
def DateTime.strftime_yyyymmdd (d : DateTime) : String :=
  pad4 d.year ++ pad2 d.month ++ pad2 d.day

/-- strftime "%H%M" on a datetime. -/
def DateTime.strftime_hhmm (d : DateTime) : String :=
  pad2 d.hour ++ pad2 d.minute

/-- Python str.upper, modelled for ASCII strings (Char.toUpper maps
a..z to A..Z and leaves other characters unchanged, which agrees with
Python on ASCII input). -/
def pyUpper (s : String) : String := ⟨s.data.map Char.toUpper⟩

/- ------------------------------------------------------------------
   Domain model (src/comarch_client/models). Field and method names
   follow the source.
   ------------------------------------------------------------------ -/

/-- models/address.py: Address dataclass. -/
structure Address where
  default_address : Bool
  address_type : String
  address_line_1 : String
  country : String
  city : String
  zip_code : String
  email : String
  address_line_2 : Option String
  address_line_3 : Option String
  state : Option String

/-- Lift an optional string to a `Value`, sending None to null. -/
def optStr : Option String → Value
  | some s => .str s
  | none => .null

/-- models/address.py: Address.to_comarch — all ten fields emitted
unconditionally, optional ones as explicit nulls. -/
def Address.to_comarch (a : Address) : List (String × Value) :=
  [("defaultAddress", .bool a.default_address),
   ("addressType", .str a.address_type),
   ("addressLine1", .str a.address_line_1),
   ("addressLine2", optStr a.address_line_2),
   ("addressLine3", optStr a.address_line_3),
   ("country", .str a.country),
   ("state", optStr a.state),
   ("city", .str a.city),
   ("zipCode", .str a.zip_code),
   ("email", .str a.email)]

/-- models/phone.py: PhoneData dataclass. -/
structure PhoneData where
  phone_number : String
  phone_type : Option String
  alt_phone_number : Option String
  alt_phone_type : Option String
  fax : Option String

/-- models/phone.py: PhoneData.to_comarch — fields with value None are
dropped (the source filters on `v is not None`). -/
def PhoneData.to_comarch (p : PhoneData) : List (String × Value) :=
  ([("phoneNumber", some p.phone_number),
    ("phoneType", p.phone_type),
    ("altPhoneNumber", p.alt_phone_number),
    ("altPhoneType", p.alt_phone_type),
    ("fax", p.fax)]).filterMap
    (fun kv => match kv.2 with
      | some v => some (kv.1, Value.str v)
      | none => none)

/-- models/communication_preferences.py: CommunicationPreferences. -/
structure CommunicationPreferences where
  language : String
  statement : String
  permission_call_center : Bool
  permission_email : Bool

/-- models/communication_preferences.py: to_comarch — four renamed
fields, unconditional. -/
def CommunicationPreferences.to_comarch (c : CommunicationPreferences) :
    List (String × Value) :=
  [("preferredLanguage", .str c.language),
   ("statementPreference", .str c.statement),
   ("commPermissionCc", .bool c.permission_call_center),
   ("commPermissionEmail", .bool c.permission_email)]

/-- models/extended_attributes.py: ExtendedAttribute. -/
structure ExtendedAttribute where
  code : String
  value : Option String

/-- models/extended_attributes.py: to_comarch — code and value,
value may be null. -/
def ExtendedAttribute.to_comarch (e : ExtendedAttribute) :
    List (String × Value) :=
  [("code", .str e.code), ("value", optStr e.value)]

/-- models/customer.py: Customer dataclass. -/
structure Customer where
  login : String
  first_name : String
  last_name : String
  birthdate : Date
  phones : List PhoneData
  addresses : List Address
  communication_preferences : CommunicationPreferences
  extended_attributes : List ExtendedAttribute
  title : Option String
  gender : Option String
  card_number : Option String

/-- models/customer.py: Customer.to_comarch — the eight base fields,
then the optional scalar fields appended only when truthy (the source
filters the optionals dict on `if v`, so an empty string is dropped). -/
def Customer.to_comarch (c : Customer) : List (String × Value) :=
  [("login", Value.str c.login),
   ("firstName", Value.str c.first_name),
   ("lastName", Value.str c.last_name),
   ("dateOfBirth", Value.str c.birthdate.strftime_ddmmyyyy),
   ("phones", Value.list (c.phones.map (fun item => Value.dict item.to_comarch))),
   ("address", Value.list (c.addresses.map (fun item => Value.dict item.to_comarch))),
   ("commPrefs", Value.dict c.communication_preferences.to_comarch),
   ("extAttributes", Value.list (c.extended_attributes.map (fun item => Value.dict item.to_comarch)))]
  ++ ([("title", c.title), ("gender", c.gender), ("cardNumber", c.card_number)]).filterMap
     (fun kv => match kv.2 with
       | some v => if (Value.str v).truthy then some (kv.1, Value.str v) else none
       | none => none)

/- ------------------------------------------------------------------
   Client layer (src/comarch_client/client.py).
   ------------------------------------------------------------------ -/

/-- Python truthiness of an optional integer (None and 0 are falsy). -/
def optIntTruthy : Option Int → Bool
  | some n => n != 0
  | none => false

/-- Python truthiness of an optional string (None and the empty string
are falsy). -/
def optStrTruthy : Option String → Bool
  | some s => !s.isEmpty
  | none => false

/-- client.py line 65: the operation-name remap table consulted when
building the outer grouping key of the envelope. -/
def classReplaceMap : List (String × String) :=
  [("nonAirlineAccrual", "nonAirAccrual")]

/-- First-match lookup in a string-to-string association list. -/
def lookupStr (k : String) : List (String × String) → Option String
  | [] => none
  | (k', v) :: rest => if k = k' then some v else lookupStr k rest

/-- client.py lines 68-73: the query block — context plus data nested
under the (possibly remapped) operation name. -/
def buildQuery (username password method : String) (query_params : Value) :
    List (String × Value) :=
  [((lookupStr method classReplaceMap).getD method,
    Value.dict
      [("context", Value.dict
         [("langCode", Value.str "en-us"),
          ("clientLogin", Value.str username),
          ("clientPass", Value.str password)]),
       ("data", query_params)])]

/-- client.py lines 74-81: the full envelope template; the body element
is always named with the original operation name. -/
def buildTemplate (username password method : String) (query_params : Value) :
    List (String × Value) :=
  [("soapenv:Envelope", Value.dict
     [("@xmlns:soapenv", Value.str "http://schemas.xmlsoap.org/soap/envelope/"),
      ("@xmlns:int", Value.str "http://interfaces.esb.clm.comarch.com/"),
      ("soapenv:Header", Value.dict []),
      ("soapenv:Body", Value.dict
        [("int:" ++ method,
          Value.dict (buildQuery username password method query_params))])])]

/-- Dictionary .get on a Python value: on a mapping it returns the
value, or None when the key is absent; on any non-mapping receiver
(str, list, int, ...) Python raises AttributeError, modelled as
`Except.error`. -/
def pyGet (v : Value) (k : String) : Except String (Option Value) :=
  match v with
  | .dict entries => .ok (lookupKey k entries)
  | _ => .error "AttributeError"

/-- Python `x or ...` applied to an optional lookup result: a missing
or falsy value is replaced by the empty dict; a truthy non-mapping
value is kept as-is (and makes the next .get raise). -/
def pyOrEmptyDict : Option Value → Value
  | some v => if v.truthy then v else .dict []
  | none => .dict []

/-- client.py lines 100-102: navigate
parse(body) → soap:Envelope → soap:Body → ns2:\x7bmethod\x7dResponse,
with `or` defaulting of the two intermediate steps. A truthy
non-mapping intermediate propagates the AttributeError of its .get. -/
def responseNavigate (parsed : Value) (method : String) :
    Except String (Option Value) := do
  let step1 ← pyGet parsed "soap:Envelope"
  let step2 ← pyGet (pyOrEmptyDict step1) "soap:Body"
  pyGet (pyOrEmptyDict step2) ("ns2:" ++ method ++ "Response")

/-- Outcome of interpreting an HTTP response: a returned payload, a
raised ComarchConnectionError (carrying its internal message), a
raised KeyError (carrying the missing key) from the final subscript, a
raised AttributeError from .get on a non-mapping navigation step, or a
raised TypeError from subscripting a non-mapping response element. -/
inductive RequestOutcome where
  | ok : Value → RequestOutcome
  | connError : String → RequestOutcome
  | keyError : String → RequestOutcome
  | attrError : RequestOutcome
  | typeError : RequestOutcome

/-- client.py line 111: the final subscript data["return"] — a KeyError
on a mapping without the key, a TypeError on a non-mapping. -/
def returnExtract (data : Value) : RequestOutcome :=
  match data with
  | .dict entries =>
    match lookupKey "return" entries with
    | some r => .ok r
    | none => .keyError "return"
  | _ => .typeError

/-- client.py lines 92-111: response interpretation of _make_request.
`prettify` and `parse` stand for the external xml.dom.minidom
pretty-printer and the xmltodict parser; the status check happens
before `parse` is ever consulted. -/
def handleResponse (prettify : String → String) (parse : String → Value)
    (method : String) (status : Nat) (response_data : String) : RequestOutcome :=
  if status ≠ 200 then
    .connError ("Response status code: " ++ toString status ++ "; response: " ++ response_data)
  else
    match responseNavigate (parse response_data) method with
    | .error _ => .attrError
    | .ok none => .connError ("Comarch soap error response:\n\n" ++ prettify response_data ++ "\n")
    | .ok (some data) => returnExtract data

/-- Append the non-None optional entries to the base mapping. All
optional keys are distinct from the base keys, so dict update is
exactly append in iteration order. -/
def updateArgs (base : List (String × Value)) (optionals : List (String × Option Value)) :
    List (String × Value) :=
  base ++ optionals.filterMap (fun kv => kv.2.map (fun v => (kv.1, v)))

/-- client.py line 248 helper: `value is None or value > 0`. -/
def positiveOrNone : Option Int → Bool
  | none => true
  | some v => decide (0 < v)

/-- client.py lines 217-265: reverse_non_airline_accrual — validation
then parameter-mapping construction (the trailing _make_request call is
the transport boundary). A raised ValueError is an `Except.error`. -/
def reverse_non_airline_accrual (card_number partner_code transaction_type : String)
    (transaction_id : Option Int) (partner_transaction_id : Option String)
    (value : Option Int) (description : Option String) :
    Except String (List (String × Value)) :=
  if !optIntTruthy transaction_id && !optStrTruthy partner_transaction_id then
    .error "Either transaction_id or partner_transaction_id is required."
  else if !positiveOrNone value then
    .error "Expected positive value or None"
  else
    .ok (updateArgs
      [("cardNo", Value.str card_number),
       ("partnerCode", Value.str partner_code),
       ("trnType", Value.str transaction_type)]
      [("trnId", transaction_id.map Value.int),
       ("prtTrnId", partner_transaction_id.map Value.str),
       ("value", value.map Value.int),
       ("desc", description.map Value.str)])

/-- The Python Union[str, List[str], None] type of benefit_codes. -/
inductive BenefitCodes where
  | single : String → BenefitCodes
  | many : List String → BenefitCodes
  | nothing : BenefitCodes

/-- client.py line 328, inner expression: the comma join of
`[benefit_codes] if isinstance(benefit_codes, str) else benefit_codes or []`. -/
def benCodesJoined : BenefitCodes → String
  | .single s => s
  | .many l => String.intercalate "," l
  | .nothing => ""

/-- client.py line 328: the joined string `or None` — an empty join is
replaced by None and the key is then dropped from the mapping. -/
def benCodesValue (bc : BenefitCodes) : Option Value :=
  if (benCodesJoined bc).isEmpty then none else some (.str (benCodesJoined bc))

/-- client.py lines 267-334: non_airline_accrual — validation then
parameter-mapping construction. The four FIXME optionals are the
constant None in the source and never survive the filter. -/
def non_airline_accrual (transaction_type card_number first_name last_name : String)
    (transaction_code : Option String) (partner_code : String)
    (partner_transaction_datetime : DateTime) (partner_transaction_id : String)
    (value : Int) (description : Option String)
    (location_code : Option String) (benefit_codes : BenefitCodes) :
    Except String (List (String × Value)) :=
  if value ≤ 0 then .error "Expected positive value"
  else
    .ok (updateArgs
      [("trnType", Value.str transaction_type),
       ("cardNo", Value.str card_number),
       ("value", Value.int value),
       ("firstName", Value.str (pyUpper first_name)),
       ("lastName", Value.str (pyUpper last_name)),
       ("partnerCode", Value.str partner_code),
       ("prtTrnDate", Value.str partner_transaction_datetime.strftime_yyyymmdd),
       ("prtTrnTime", Value.str partner_transaction_datetime.strftime_hhmm),
       ("prtTrnId", Value.str partner_transaction_id)]
      [("trnCode", transaction_code.map Value.str),
       ("prtTrnTimeZone", (none : Option Value)),
       ("locCode", location_code.map Value.str),
       ("revenue", (none : Option Value)),
       ("desc", description.map Value.str),
       ("benCodes", benCodesValue benefit_codes),
       ("product", (none : Option Value)),
       ("dynAttr", (none : Option Value))])

/-- client.py lines 336-348: enroll — the parameter mapping passed to
_make_request: the serialized customer plus the incompleteData flag. -/
def enroll (customer : Customer) (is_complete : Bool) : List (String × Value) :=
  [("customer", Value.dict customer.to_comarch),
   ("incompleteData", Value.str (if is_complete then "N" else "Y"))]

/- ------------------------------------------------------------------
   Error taxonomy (src/comarch_client/exceptions.py).
   ------------------------------------------------------------------ -/

/-- Python `arg or default` on optional strings (an empty string is
falsy and falls through to the default). -/
def pyOrStr : Option String → Option String → Option String
  | some s, d => if s.isEmpty then d else some s
  | none, d => d

/-- Python `arg or default` on optional integers (0 is falsy). -/
def pyOrInt : Option Int → Option Int → Option Int
  | some n, d => if n = 0 then d else some n
  | none, d => d

/-- The class-level attribute defaults a concrete error class supplies
to BaseError (exceptions.py lines 6-8 and subclass overrides). -/
structure ErrorClassDefaults where
  message : Option String
  error_code : Option Int
  http_code : Option Int

/-- exceptions.py lines 6-8: BaseError itself defaults everything to None. -/
def baseErrorDefaults : ErrorClassDefaults := ⟨none, none, none⟩

/-- exceptions.py lines 41-46: ComarchConnectionError class attributes. -/
def comarchConnectionErrorDefaults : ErrorClassDefaults :=
  ⟨some "Bonus program is unavailable", some 50301, some 503⟩

/-- The fields of a successfully constructed BaseError instance. -/
structure ErrorState where
  message : Option String
  error_code : Option Int
  http_code : Option Int
  internal_message : Option String

/-- exceptions.py lines 11-27: BaseError.__init__ — each argument is
`or`-merged with the class default, then the three asserts check
truthiness of message, error_code and http_code. A failing assert is
an `Except.error` carrying the assertion message. -/
def initBaseError (cls : ErrorClassDefaults)
    (message : Option String) (error_code http_code : Option Int)
    (internal_message : Option String) : Except String ErrorState :=
  let m := pyOrStr message cls.message
  let ec := pyOrInt error_code cls.error_code
  let hc := pyOrInt http_code cls.http_code
  let im := pyOrStr internal_message none
  if !optStrTruthy m then .error "Message not implemented!"
  else if !optIntTruthy ec then .error "Error code not implemented!"
  else if !optIntTruthy hc then .error "Http code not implemented!"
  else .ok ⟨m, ec, hc, im⟩

/-- Python str() of an optional string attribute (None prints as None). -/
def reprOptStr : Option String → String
  | some s => s
  | none => "None"

/-- Python str() of an optional integer attribute. -/
def reprOptInt : Option Int → String
  | some n => toString n
  | none => "None"

/-- exceptions.py lines 29-33: BaseError.__str__ — the fixed rendering,
with the internal message appended in braces when truthy. -/
def errorStr (e : ErrorState) : String :=
  let base := reprOptInt e.http_code ++ ":" ++ reprOptInt e.error_code ++ ": " ++ reprOptStr e.message
  if optStrTruthy e.internal_message then
    base ++ " \x7b" ++ reprOptStr e.internal_message ++ "\x7d"
  else
    base

/- ------------------------------------------------------------------
   Helper definitions used by the statements below.
   ------------------------------------------------------------------ -/

/-- Look a key up in the mapping of a successful call: `some (some v)`
means the call succeeded and the key maps to v, `some none` means the
call succeeded without the key, `none` means the call failed. -/
def okLookup (k : String) (r : Except String (List (String × Value))) :
    Option (Option Value) :=
  r.toOption.map (lookupKey k)

/-- A parser stub returning a fixed parsed document for every body. -/
def constParse (v : Value) : String → Value := fun _ => v

/-- A concrete address with all three optional fields absent. -/
def addrEx : Address :=
  { default_address := true, address_type := "H", address_line_1 := "Line 1",
    country := "RUS", city := "Moscow", zip_code := "101000",
    email := "member@example.com", address_line_2 := none,
    address_line_3 := none, state := none }

/-- A concrete parsed 200 response whose body contains the expected
getBalanceResponse element but no `return` child. -/
def responseMissingReturn : Value :=
  Value.dict [("soap:Envelope", Value.dict
    [("soap:Body", Value.dict
      [("ns2:getBalanceResponse", Value.dict [("status", Value.str "OK")])])])]

/- ------------------------------------------------------------------
   Claim theorems.
   ------------------------------------------------------------------ -/

/-- Claim C1: for every Customer and every boolean is_complete, the
enroll parameter mapping carries incompleteData = "N" when is_complete
is true and "Y" when it is false (polarity inverted relative to the
flag name), alongside the serialized customer under the key customer. -/
theorem enroll_incompleteData_polarity (c : Customer) (b : Bool) :
    lookupKey "incompleteData" (enroll c b) =
      some (Value.str (if b then "N" else "Y")) ∧
    lookupKey "customer" (enroll c b) = some (Value.dict c.to_comarch) ∧
    lookupKey "incompleteData" (enroll c true) = some (Value.str "N") ∧
    lookupKey "incompleteData" (enroll c false) = some (Value.str "Y") := by
  refine ⟨?_, ?_, ?_, ?_⟩ <;> simp [enroll, lookupKey]

/-- Claim C4 counterexample: the Address wire form of a concrete
address has 10 keys, not 9 as the claim states. -/
theorem address_nine_keys_counterexample :
    addrEx.to_comarch.length = 10 ∧ addrEx.to_comarch.length ≠ 9 := by
  exact ⟨rfl, by decide⟩

/-- Claim C4 (amended): for every Address, regardless of which optional
fields are null, the wire form contains exactly 10 keys — namely
defaultAddress, addressType, addressLine1..3, country, state, city,
zipCode, email — with all fields emitted unconditionally and absent
optionals sent as explicit nulls. -/
theorem address_serialization_keys (a : Address) :
    a.to_comarch.map Prod.fst =
      ["defaultAddress", "addressType", "addressLine1", "addressLine2",
       "addressLine3", "country", "state", "city", "zipCode", "email"] ∧
    a.to_comarch.length = 10 ∧
    lookupKey "addressLine2" a.to_comarch = some (optStr a.address_line_2) ∧
    lookupKey "addressLine3" a.to_comarch = some (optStr a.address_line_3) ∧
    lookupKey "state" a.to_comarch = some (optStr a.state) := by
  refine ⟨rfl, rfl, ?_, ?_, ?_⟩ <;> simp [Address.to_comarch, lookupKey]

/-- Claim C10: a 200 response whose body contains the expected
getBalanceResponse element but no return child makes the interpreter
raise a KeyError (a distinct outcome constructor from the typed
connectivity failure): the final subscript is unguarded. -/
theorem return_extraction_keyerror :
    handleResponse id (constParse responseMissingReturn) "getBalance" 200 "<body/>"
      = RequestOutcome.keyError "return" := rfl

/-- Claim C2: for every operation name not in the remap table the
envelope nests the context/data block under an outer grouping key equal
to the operation name and names the body element int:name; for the one
remapped operation nonAirlineAccrual the outer grouping key is
nonAirAccrual while the body element keeps the original name. -/
theorem envelope_grouping_and_body (u p method : String) (params : Value)
    (h : method ≠ "nonAirlineAccrual") :
    buildTemplate u p method params =
      [("soapenv:Envelope", Value.dict
        [("@xmlns:soapenv", Value.str "http://schemas.xmlsoap.org/soap/envelope/"),
         ("@xmlns:int", Value.str "http://interfaces.esb.clm.comarch.com/"),
         ("soapenv:Header", Value.dict []),
         ("soapenv:Body", Value.dict
           [("int:" ++ method, Value.dict
             [(method, Value.dict
               [("context", Value.dict
                  [("langCode", Value.str "en-us"),
                   ("clientLogin", Value.str u),
                   ("clientPass", Value.str p)]),
                ("data", params)])])])])] ∧
    buildTemplate u p "nonAirlineAccrual" params =
      [("soapenv:Envelope", Value.dict
        [("@xmlns:soapenv", Value.str "http://schemas.xmlsoap.org/soap/envelope/"),
         ("@xmlns:int", Value.str "http://interfaces.esb.clm.comarch.com/"),
         ("soapenv:Header", Value.dict []),
         ("soapenv:Body", Value.dict
           [("int:nonAirlineAccrual", Value.dict
             [("nonAirAccrual", Value.dict
               [("context", Value.dict
                  [("langCode", Value.str "en-us"),
                   ("clientLogin", Value.str u),
                   ("clientPass", Value.str p)]),
                ("data", params)])])])])] := by
  constructor
  · simp [buildTemplate, buildQuery, classReplaceMap, lookupStr, h]
  · rfl

/-- Claim C2 witness: the theorem applied to the concrete operation
getBalance, which is not in the remap table. -/
theorem envelope_grouping_witness :
    buildTemplate "u" "p" "getBalance" Value.null =
      [("soapenv:Envelope", Value.dict
        [("@xmlns:soapenv", Value.str "http://schemas.xmlsoap.org/soap/envelope/"),
         ("@xmlns:int", Value.str "http://interfaces.esb.clm.comarch.com/"),
         ("soapenv:Header", Value.dict []),
         ("soapenv:Body", Value.dict
           [("int:getBalance", Value.dict
             [("getBalance", Value.dict
               [("context", Value.dict
                  [("langCode", Value.str "en-us"),
                   ("clientLogin", Value.str "u"),
                   ("clientPass", Value.str "p")]),
                ("data", Value.null)])])])])] :=
  (envelope_grouping_and_body "u" "p" "getBalance" Value.null (by decide)).1

/-- Claim C3 counterexample: a well-formed 200 body parsing to
soap:Envelope = "junk" lacks the expected getBalanceResponse element,
yet the interpreter raises AttributeError — ("junk" or \x7b\x7d).get
at client.py line 100 — not the connectivity failure with the
pretty-printed body that the claim asserts for every such body. -/
theorem response_missing_element_counterexample :
    handleResponse id (constParse (Value.dict [("soap:Envelope", Value.str "junk")]))
      "getBalance" 200 "<soap:Envelope>junk</soap:Envelope>" = RequestOutcome.attrError ∧
    RequestOutcome.attrError ≠
      RequestOutcome.connError
        ("Comarch soap error response:\n\n" ++
          id "<soap:Envelope>junk</soap:Envelope>" ++ "\n") := by
  exact ⟨rfl, by simp⟩

/-- Claim C3 (amended): a non-200 status always yields the connectivity
failure and the outcome does not depend on the document parser; a 200
status whose parsed body lacks the expected response element with every
navigation step landing on a mapping yields the connectivity failure
carrying the pretty-printed body, while a truthy non-mapping
intermediate instead raises AttributeError outside the taxonomy; a 200
status with the expected shape returns exactly the return sub-mapping. -/
theorem response_classification (pf pf₂ : String → String)
    (ps ps₂ : String → Value) (method body : String) (status : Nat) :
    (status ≠ 200 →
      handleResponse pf ps method status body =
        .connError ("Response status code: " ++ toString status ++ "; response: " ++ body) ∧
      handleResponse pf ps method status body = handleResponse pf₂ ps₂ method status body) ∧
    (responseNavigate (ps body) method = .ok none →
      handleResponse pf ps method 200 body =
        .connError ("Comarch soap error response:\n\n" ++ pf body ++ "\n")) ∧
    (∀ e, responseNavigate (ps body) method = .error e →
      handleResponse pf ps method 200 body = .attrError) ∧
    (∀ entries r, responseNavigate (ps body) method = .ok (some (.dict entries)) →
      lookupKey "return" entries = some r →
      handleResponse pf ps method 200 body = .ok r) := by
  refine ⟨fun h => ⟨?_, ?_⟩, fun h => ?_, fun e h => ?_, fun entries r h hr => ?_⟩
  · simp [handleResponse, h]
  · simp [handleResponse, h]
  · simp [handleResponse, h]
  · simp [handleResponse, h]
  · simp [handleResponse, returnExtract, h, hr]

/-- Claim C3 witness: the theorem applied at status 500 (connectivity
failure independent of the parser), at a 200 body parsing to an empty
mapping (missing element on an all-mapping path), at the "junk"
envelope (AttributeError), and at a 200 response of the expected shape
(the return sub-mapping comes back verbatim). -/
theorem response_classification_witness :
    handleResponse id (constParse Value.null) "getBalance" 500 "boom" =
      .connError ("Response status code: " ++ toString 500 ++ "; response: " ++ "boom") ∧
    handleResponse id (constParse (Value.dict [])) "getBalance" 200 "<empty/>" =
      .connError ("Comarch soap error response:\n\n" ++ id "<empty/>" ++ "\n") ∧
    handleResponse id (constParse (Value.dict [("soap:Envelope", Value.str "junk")]))
      "getBalance" 200 "<junk/>" = .attrError ∧
    handleResponse id
      (constParse (Value.dict [("soap:Envelope", Value.dict
        [("soap:Body", Value.dict
          [("ns2:getBalanceResponse", Value.dict
            [("return", Value.dict [("balance", Value.str "7")])])])])]))
      "getBalance" 200 "ok-body" =
      .ok (Value.dict [("balance", Value.str "7")]) := by
  refine ⟨?_, ?_, ?_, ?_⟩
  · exact ((response_classification id id (constParse Value.null) (constParse Value.null)
      "getBalance" "boom" 500).1 (by decide)).1
  · exact (response_classification id id (constParse (Value.dict []))
      (constParse Value.null) "getBalance" "<empty/>" 200).2.1 rfl
  · exact (response_classification id id
      (constParse (Value.dict [("soap:Envelope", Value.str "junk")]))
      (constParse Value.null) "getBalance" "<junk/>" 200).2.2.1 "AttributeError" rfl
  · exact (response_classification id id
      (constParse (Value.dict [("soap:Envelope", Value.dict
        [("soap:Body", Value.dict
          [("ns2:getBalanceResponse", Value.dict
            [("return", Value.dict [("balance", Value.str "7")])])])])]))
      (constParse Value.null) "getBalance" "ok-body" 200).2.2.2
      [("return", Value.dict [("balance", Value.str "7")])]
      (Value.dict [("balance", Value.str "7")]) rfl rfl

/-- Claim C5 counterexample: a reversal call that passes validation
must supply a truthy transaction identifier, and every supplied
identifier is appended to the mapping, so the mapping of a minimal
valid call has 4 keys, not 3: claimed 3 differs from actual 4. -/
theorem reversal_three_keys_counterexample :
    (reverse_non_airline_accrual "c" "p" "t" (some 1) none none none).map List.length =
      Except.ok 4 ∧ (4 : Nat) ≠ 3 :=
  ⟨rfl, by decide⟩

/-- Claim C5 (amended): for every reversal call that passes validation
and supplies neither value nor description, the parameter mapping
contains the 3 base keys (card, partner code, transaction type) plus
one key per supplied transaction identifier — 4 keys when exactly one
identifier is supplied. -/
theorem reversal_arg_count (c p t : String) (tid : Option Int) (pid : Option String)
    (h : (optIntTruthy tid || optStrTruthy pid) = true) :
    (reverse_non_airline_accrual c p t tid pid none none).map (List.map Prod.fst) =
      .ok (["cardNo", "partnerCode", "trnType"]
        ++ (tid.map (fun _ => "trnId")).toList
        ++ (pid.map (fun _ => "prtTrnId")).toList) ∧
    (reverse_non_airline_accrual c p t tid pid none none).map List.length =
      .ok (3 + (if tid.isSome then 1 else 0) + (if pid.isSome then 1 else 0)) := by
  have hc : (!optIntTruthy tid && !optStrTruthy pid) = false := by
    cases ha : optIntTruthy tid <;> cases hb : optStrTruthy pid <;> simp_all
  constructor <;>
    (rcases tid with _ | n <;> rcases pid with _ | s <;>
      simp [reverse_non_airline_accrual, updateArgs, positiveOrNone, hc, Except.map])

/-- Claim C5 witness: the amended theorem at a concrete call supplying
only the internal transaction id — exactly 4 keys. -/
theorem reversal_arg_count_witness :
    (reverse_non_airline_accrual "c" "p" "t" (some 1) none none none).map List.length =
      .ok 4 :=
  (reversal_arg_count "c" "p" "t" (some 1) none (by decide)).2

/-- Claim C6: the reversal raises a local argument error whenever both
transaction identifiers are null, and whenever a supplied value is not
strictly positive; an absent value (full reversal) is accepted. -/
theorem reversal_validation (c p t : String) (tid : Option Int) (pid : Option String)
    (v : Option Int) (d : Option String) :
    (tid = none → pid = none →
      reverse_non_airline_accrual c p t tid pid v d =
        .error "Either transaction_id or partner_transaction_id is required.") ∧
    ((optIntTruthy tid || optStrTruthy pid) = true → ∀ x, v = some x → x ≤ 0 →
      reverse_non_airline_accrual c p t tid pid v d =
        .error "Expected positive value or None") ∧
    ((optIntTruthy tid || optStrTruthy pid) = true →
      ∃ l, reverse_non_airline_accrual c p t tid pid none d = .ok l) := by
  refine ⟨fun h1 h2 => ?_, fun h x hv hx => ?_, fun h => ?_⟩
  · subst h1; subst h2; rfl
  · have hc : (!optIntTruthy tid && !optStrTruthy pid) = false := by
      cases ha : optIntTruthy tid <;> cases hb : optStrTruthy pid <;> simp_all
    subst hv
    simp [reverse_non_airline_accrual, hc, positiveOrNone, not_lt.mpr hx]
  · have hc : (!optIntTruthy tid && !optStrTruthy pid) = false := by
      cases ha : optIntTruthy tid <;> cases hb : optStrTruthy pid <;> simp_all
    exact ⟨updateArgs
      [("cardNo", Value.str c), ("partnerCode", Value.str p), ("trnType", Value.str t)]
      [("trnId", tid.map Value.int), ("prtTrnId", pid.map Value.str),
       ("value", (none : Option Value)), ("desc", d.map Value.str)],
      by simp [reverse_non_airline_accrual, hc, positiveOrNone]⟩

/-- Claim C6 witness: both identifiers null fails locally; value -1
with a valid identifier fails locally; absent value is accepted. -/
theorem reversal_validation_witness :
    reverse_non_airline_accrual "c" "p" "t" none none (some 5) none =
      .error "Either transaction_id or partner_transaction_id is required." ∧
    reverse_non_airline_accrual "c" "p" "t" (some 7) none (some (-1)) none =
      .error "Expected positive value or None" ∧
    reverse_non_airline_accrual "c" "p" "t" (some 7) none none none =
      .ok [("cardNo", Value.str "c"), ("partnerCode", Value.str "p"),
           ("trnType", Value.str "t"), ("trnId", Value.int 7)] := by
  refine ⟨(reversal_validation "c" "p" "t" none none (some 5) none).1 rfl rfl,
          (reversal_validation "c" "p" "t" (some 7) none (some (-1)) none).2.1
            (by decide) (-1) rfl (by decide),
          rfl⟩

/-- Claim C9 counterexample: a zero transaction id can appear in the
parameter mapping — when the partner transaction id is truthy the call
passes validation and trnId = 0 is appended (the optionals filter tests
`is not None`, not truthiness). -/
theorem zero_trnId_counterexample :
    reverse_non_airline_accrual "c" "p" "t" (some 0) (some "ptid") none none =
      .ok [("cardNo", Value.str "c"), ("partnerCode", Value.str "p"),
           ("trnType", Value.str "t"), ("trnId", Value.int 0),
           ("prtTrnId", Value.str "ptid")] := rfl

/-- Claim C9 (amended): the reversal validation tests the identifiers
for truthiness, not presence — transaction_id = 0 or
partner_transaction_id = "" with the other identifier absent raises the
local argument error exactly as if no identifier were supplied; but a
zero transaction id still appears in the mapping whenever the other
identifier is truthy, because the mapping filter only drops None. -/
theorem reversal_truthiness (c p t : String) :
    (reverse_non_airline_accrual c p t (some 0) none none none =
      .error "Either transaction_id or partner_transaction_id is required.") ∧
    (reverse_non_airline_accrual c p t none (some "") none none =
      .error "Either transaction_id or partner_transaction_id is required.") ∧
    (∀ pid : String, pid.isEmpty = false →
      okLookup "trnId" (reverse_non_airline_accrual c p t (some 0) (some pid) none none) =
        some (some (Value.int 0))) := by
  refine ⟨rfl, rfl, fun pid hp => ?_⟩
  simp [reverse_non_airline_accrual, updateArgs, positiveOrNone, optIntTruthy,
    optStrTruthy, okLookup, lookupKey, Except.toOption, hp]

/-- Claim C9 witness: the amended theorem at a concrete nonempty
partner transaction id. -/
theorem reversal_truthiness_witness :
    okLookup "trnId" (reverse_non_airline_accrual "c" "p" "t" (some 0) (some "x") none none) =
      some (some (Value.int 0)) :=
  (reversal_truthiness "c" "p" "t").2.2 "x" (by decide)

/-- Claim C7: the accrual fails locally for every value ≤ 0; otherwise
its parameter mapping upper-cases the first and last name (pyUpper
computes "jo" to "JO"), splits the transaction datetime into a
YYYYMMDD date field and an HHMM time field, and joins benefit codes
with commas, omitting the field entirely when the join is empty. -/
theorem accrual_shaping (tt cn fn ln : String) (tc : Option String) (pc : String)
    (dt : DateTime) (ptid : String) (value : Int) (d lc : Option String)
    (bc : BenefitCodes) :
    (value ≤ 0 →
      non_airline_accrual tt cn fn ln tc pc dt ptid value d lc bc =
        .error "Expected positive value") ∧
    (0 < value →
      okLookup "firstName" (non_airline_accrual tt cn fn ln tc pc dt ptid value d lc bc) =
        some (some (Value.str (pyUpper fn))) ∧
      okLookup "lastName" (non_airline_accrual tt cn fn ln tc pc dt ptid value d lc bc) =
        some (some (Value.str (pyUpper ln))) ∧
      okLookup "prtTrnDate" (non_airline_accrual tt cn fn ln tc pc dt ptid value d lc bc) =
        some (some (Value.str (pad4 dt.year ++ pad2 dt.month ++ pad2 dt.day))) ∧
      okLookup "prtTrnTime" (non_airline_accrual tt cn fn ln tc pc dt ptid value d lc bc) =
        some (some (Value.str (pad2 dt.hour ++ pad2 dt.minute))) ∧
      okLookup "benCodes" (non_airline_accrual tt cn fn ln tc pc dt ptid value d lc bc) =
        some (match bc with
          | BenefitCodes.single s =>
              if s.isEmpty then none else some (Value.str s)
          | BenefitCodes.many cs =>
              if (String.intercalate "," cs).isEmpty then none
              else some (Value.str (String.intercalate "," cs))
          | BenefitCodes.nothing => none)) ∧
    pyUpper "jo" = "JO" := by
  refine ⟨fun h => ?_, fun h => ?_, by decide⟩
  · simp [non_airline_accrual, h]
  · have hnle : ¬ value ≤ 0 := not_le.mpr h
    refine ⟨?_, ?_, ?_, ?_, ?_⟩ <;>
      rcases bc with s | cs | _ <;>
        rcases tc with _ | tc <;> rcases lc with _ | lc <;> rcases d with _ | d <;>
          simp [non_airline_accrual, updateArgs, okLookup, benCodesValue,
            benCodesJoined, lookupKey, Except.toOption, hnle,
            DateTime.strftime_yyyymmdd, DateTime.strftime_hhmm] <;>
          split <;> simp [lookupKey]

/-- Claim C7 witness: the theorem at a concrete accrual with value 5,
first name "jo" (serialized "JO") and no benefit codes. -/
theorem accrual_shaping_witness :
    okLookup "firstName"
      (non_airline_accrual "T" "c" "jo" "do" none "P" ⟨2020, 1, 2, 3, 4⟩ "x" 5
        none none BenefitCodes.nothing) = some (some (Value.str "JO")) ∧
    non_airline_accrual "T" "c" "jo" "do" none "P" ⟨2020, 1, 2, 3, 4⟩ "x" 0
        none none BenefitCodes.nothing = .error "Expected positive value" := by
  have h := accrual_shaping "T" "c" "jo" "do" none "P" ⟨2020, 1, 2, 3, 4⟩ "x" 5
    none none BenefitCodes.nothing
  have h0 := accrual_shaping "T" "c" "jo" "do" none "P" ⟨2020, 1, 2, 3, 4⟩ "x" 0
    none none BenefitCodes.nothing
  exact ⟨(h.2.1 (by decide)).1, h0.1 (by decide)⟩

/-- Claim C8: the connectivity failure carries the fixed triple
(503, 50301, "Bonus program is unavailable"); a failure renders as
status:code: message, followed by the internal detail in braces exactly
when the detail is truthy; and a construction whose merged message,
error code or status code ends up empty fails the construction-time
asserts, so successful construction implies all three are non-empty. -/
theorem error_taxonomy_contract (cls : ErrorClassDefaults)
    (im msg : Option String) (eco hco : Option Int)
    (m d : String) (ec hc : Int) (st : ErrorState) :
    ((initBaseError comarchConnectionErrorDefaults none none none im).map ErrorState.http_code
        = .ok (some 503) ∧
     (initBaseError comarchConnectionErrorDefaults none none none im).map ErrorState.error_code
        = .ok (some 50301) ∧
     (initBaseError comarchConnectionErrorDefaults none none none im).map ErrorState.message
        = .ok (some "Bonus program is unavailable")) ∧
    (errorStr ⟨some m, some ec, some hc, none⟩ =
        toString hc ++ ":" ++ toString ec ++ ": " ++ m) ∧
    (d.isEmpty = false → errorStr ⟨some m, some ec, some hc, some d⟩ =
        toString hc ++ ":" ++ toString ec ++ ": " ++ m ++ " \x7b" ++ d ++ "\x7d") ∧
    (errorStr ⟨some m, some ec, some hc, some ""⟩ =
        toString hc ++ ":" ++ toString ec ++ ": " ++ m) ∧
    (initBaseError cls msg eco hco im = .ok st →
      optStrTruthy st.message = true ∧ optIntTruthy st.error_code = true ∧
      optIntTruthy st.http_code = true) ∧
    (initBaseError baseErrorDefaults (some "") (some 1) (some 2) none =
      .error "Message not implemented!") := by
  refine ⟨⟨?_, ?_, ?_⟩, ?_, fun hd => ?_, ?_, fun hok => ?_, ?_⟩
  · rcases im with _ | s <;> rfl
  · rcases im with _ | s <;> rfl
  · rcases im with _ | s <;> rfl
  · rfl
  · simp [errorStr, optStrTruthy, reprOptInt, reprOptStr, hd]
  · rfl
  · simp only [initBaseError] at hok
    split at hok
    · simp at hok
    · split at hok
      · simp at hok
      · split at hok
        · simp at hok
        · simp only [Except.ok.injEq] at hok
          subst hok
          simp_all
  · rfl

/-- Claim C8 witness: the rendering with a truthy internal detail, and
the non-emptiness contract at a successfully constructed connectivity
failure. -/
theorem error_taxonomy_witness :
    errorStr ⟨some "Bonus program is unavailable", some 50301, some 503, some "why"⟩ =
      "503:50301: Bonus program is unavailable \x7bwhy\x7d" ∧
    (optStrTruthy (some "Bonus program is unavailable") = true ∧
     optIntTruthy (some 50301) = true ∧ optIntTruthy (some 503) = true) := by
  constructor
  · exact (error_taxonomy_contract baseErrorDefaults none none none none
      "Bonus program is unavailable" "why" 50301 503
      ⟨none, none, none, none⟩).2.2.1 (by decide)
  · exact (error_taxonomy_contract comarchConnectionErrorDefaults none none none none
      "m" "d" 1 1 ⟨some "Bonus program is unavailable", some 50301, some 503, none⟩).2.2.2.2.1
      rfl

end ComarchClient
